import Mathlib

/-!
Verification of the AI-Analysis-System server (`src/WebSocket.py`).

The Python server (`AIConceptAnalysisServer`) is shallowly embedded here:
numbers are modelled as rationals, Python's built-in `hash` is modelled as
an arbitrary fixed function `h : String → Int` (it is stable within one
process run), and the stateful parts (result cache, active-connection set)
are modelled by explicit state passing on a `ServerState` record.
-/

/-- Checks whether `pat` occurs at the start of `hay`; models Python's
substring matching at one position. -/
def startsWithL : List Char → List Char → Bool
  | [], _ => true
  | _ :: _, [] => false
  | p :: ps, c :: cs => p == c && startsWithL ps cs

/-- Checks whether `pat` occurs as a contiguous substring of `hay`; models
the Python expression `pat in hay` on strings. -/
def occursIn (pat : List Char) : List Char → Bool
  | [] => startsWithL pat []
  | c :: cs => startsWithL pat (c :: cs) || occursIn pat cs

/-- Character-wise lowercasing; models Python's `str.lower()`. -/
def lowerChars (l : List Char) : List Char := l.map Char.toLower

/-- Word counter: `splitCount inWord cs` counts the maximal runs of
non-whitespace characters in `cs`, where `inWord` records whether the
previous character was part of a word.  Models `len(s.split())`. -/
def splitCount : Bool → List Char → Nat
  | _, [] => 0
  | inWord, c :: cs =>
    if c.isWhitespace then splitCount false cs
    else (if inWord then 0 else 1) + splitCount true cs

/-- Number of whitespace-separated words of a string; models Python's
`len(response.split())`. -/
def wordCount (s : String) : Nat := splitCount false s.data

/-- The fixed concept-to-keywords table of `_calculate_score`
(src/WebSocket.py lines 53-57). -/
def keywordTable : List (String × List String) :=
  [("machine_learning", ["algorithm", "training", "model", "data"]),
   ("neural_networks", ["neuron", "layer", "activation", "weights"]),
   ("ai_ethics", ["bias", "fairness", "transparency", "accountability"])]

/-- The keyword set chosen for a concept; models
`keywords.get(concept, [])` (line 60). -/
def conceptKeywords (concept : String) : List String :=
  (keywordTable.lookup concept).getD []

/-- Count of configured keywords appearing case-insensitively as substrings
of the response; models line 63 of src/WebSocket.py. -/
def keyword_score (response concept : String) : Nat :=
  (conceptKeywords concept).countP
    (fun k => occursIn (lowerChars k.data) (lowerChars response.data))

/-- Normalised length score `min(len(response.split()) / 50, 1)`;
models line 64 of src/WebSocket.py. -/
def length_score (response : String) : ℚ :=
  min ((wordCount response : ℚ) / 50) 1

/-- The scorer `_calculate_score` of src/WebSocket.py (lines 48-68):
weighted keyword/length score clamped to `[0, 100]`. -/
def _calculate_score (response concept : String) : ℚ :=
  min (max (((keyword_score response concept : ℚ) * 0.6
    + length_score response * 0.4) * 100) 0) 100

/-- The feedback template table of `_generate_feedback`
(src/WebSocket.py lines 74-87), keyed by the bucket name. -/
def feedback_templates : List (String × List String) :=
  [("low",
    ["Your response shows initial understanding, but could be more comprehensive.",
     "Try to include more specific details related to the concept."]),
   ("medium",
    ["Good start! Consider diving deeper into the technical aspects.",
     "You're on the right track. Expand on key principles."]),
   ("high",
    ["Excellent analysis demonstrating deep conceptual understanding!",
     "Impressive response that covers multiple important aspects."])]

/-- Bucket selection of `_generate_feedback` (lines 90-95):
`low` below 40, `medium` below 75, `high` otherwise. -/
def feedbackCategory (score : ℚ) : String :=
  if score < 40 then "low"
  else if score < 75 then "medium"
  else "high"

/-- The feedback selector `_generate_feedback` of src/WebSocket.py
(lines 70-97).  `h` models Python's built-in `hash`; the result is the
template at index `hash(response) % len(templates[category])` (Python's
`%` on a positive modulus is `Int.emod`). -/
def _generate_feedback (h : String → Int) (response : String) (_concept : String)
    (score : ℚ) : String :=
  let category := feedbackCategory score
  let templates := (feedback_templates.lookup category).getD []
  templates.getD ((h response % (templates.length : Int)).toNat) ""

/-- The result record assembled by `analyze_response`
(src/WebSocket.py lines 37-42). -/
structure AnalysisResult where
  concept : String
  total_score : ℚ
  feedback : String
  unique_id : String
deriving DecidableEq, Repr

/-- The mutable state of `AIConceptAnalysisServer`: the result cache
(a dict, modelled as an association list where lookup prefers the most
recent entry) and the set of active connections (connections are modelled
by numeric identifiers). -/
structure ServerState where
  response_cache : List (String × AnalysisResult)
  active_connections : List Nat
deriving Repr

/-- The cache key `f"{concept}_{hash(response)}"`
(src/WebSocket.py line 29). -/
def cacheKey (h : String → Int) (response concept : String) : String :=
  concept ++ "_" ++ toString (h response)

/-- The pipeline `analyze_response` of src/WebSocket.py (lines 23-46):
on a cache hit return the stored result unchanged; otherwise score,
select feedback, mint the supplied fresh identifier (modelling
`str(uuid.uuid4())`), store and return.  Returns the result together
with the updated server state. -/
def analyze_response (h : String → Int) (st : ServerState)
    (response concept fresh : String) : AnalysisResult × ServerState :=
  let key := cacheKey h response concept
  match st.response_cache.lookup key with
  | some cached => (cached, st)
  | none =>
    let total_score := _calculate_score response concept
    let feedback := _generate_feedback h response concept total_score
    let result : AnalysisResult :=
      { concept := concept, total_score := total_score,
        feedback := feedback, unique_id := fresh }
    (result, { st with response_cache := (key, result) :: st.response_cache })

theorem occursIn_nil_pat (hay : List Char) : occursIn [] hay = true := by
  cases hay <;> simp [occursIn, startsWithL]

theorem startsWithL_append {pat hay : List Char} (t : List Char)
    (hp : startsWithL pat hay = true) : startsWithL pat (hay ++ t) = true := by
  induction pat generalizing hay with
  | nil => simp [startsWithL]
  | cons p ps ih =>
    cases hay with
    | nil => simp [startsWithL] at hp
    | cons c cs =>
      simp only [startsWithL, Bool.and_eq_true] at hp ⊢
      exact ⟨hp.1, ih hp.2⟩

theorem occursIn_append {pat hay : List Char} (t : List Char)
    (hp : occursIn pat hay = true) : occursIn pat (hay ++ t) = true := by
  induction hay with
  | nil =>
    cases pat with
    | nil => exact occursIn_nil_pat t
    | cons p ps => simp [occursIn, startsWithL] at hp
  | cons c cs ih =>
    simp only [occursIn, Bool.or_eq_true] at hp
    cases hp with
    | inl hs =>
      cases ht : occursIn pat ((c :: cs) ++ t) with
      | true => rfl
      | false =>
        cases t' : (c :: cs) ++ t with
        | nil => simp at t'
        | cons d ds =>
          rw [t'] at ht
          simp only [occursIn, Bool.or_eq_true, not_or] at ht
          have := startsWithL_append t hs
          rw [t'] at this
          simp [this] at ht
    | inr ho =>
      simp only [List.cons_append, occursIn, Bool.or_eq_true]
      exact Or.inr (ih ho)

theorem countP_mono_of_imp {α : Type} (p q : α → Bool) (l : List α)
    (him : ∀ a ∈ l, p a = true → q a = true) : l.countP p ≤ l.countP q := by
  induction l with
  | nil => simp
  | cons a as ih =>
    have ha := him a (List.mem_cons_self a as)
    have has : ∀ b ∈ as, p b = true → q b = true :=
      fun b hb => him b (List.mem_cons_of_mem a hb)
    have ihas := ih has
    simp only [List.countP_cons]
    by_cases hp : p a = true
    · rw [if_pos hp, if_pos (ha hp)]
      omega
    · rw [if_neg hp]
      split <;> omega

theorem splitCount_append_le (b : Bool) (l t : List Char) :
    splitCount b l ≤ splitCount b (l ++ t) := by
  induction l generalizing b with
  | nil => simp [splitCount]
  | cons c cs ih =>
    simp only [List.cons_append, splitCount]
    by_cases hw : c.isWhitespace
    · simp only [hw, if_true]
      exact ih false
    · simp only [hw, if_false]
      exact Nat.add_le_add_left (ih true) _

theorem wordCount_append_le (r ext : String) :
    wordCount r ≤ wordCount (r ++ ext) := by
  unfold wordCount
  rw [String.data_append]
  exact splitCount_append_le false r.data ext.data

theorem keyword_score_append_le (r ext concept : String) :
    keyword_score r concept ≤ keyword_score (r ++ ext) concept := by
  unfold keyword_score
  apply countP_mono_of_imp
  intro k _ hk
  rw [String.data_append]
  unfold lowerChars
  rw [List.map_append]
  exact occursIn_append _ hk

theorem length_score_nonneg (r : String) : 0 ≤ length_score r := by
  unfold length_score
  apply le_min _ (by norm_num)
  positivity

theorem length_score_le_one (r : String) : length_score r ≤ 1 :=
  min_le_right _ _

theorem length_score_append_le (r ext : String) :
    length_score r ≤ length_score (r ++ ext) := by
  unfold length_score
  have h := wordCount_append_le r ext
  have : (wordCount r : ℚ) ≤ (wordCount (r ++ ext) : ℚ) := by exact_mod_cast h
  gcongr

/-- C2: for every response text and every concept identifier, the score
returned by `_calculate_score` lies within `[0, 100]`. -/
theorem score_in_unit_range (response concept : String) :
    0 ≤ _calculate_score response concept ∧ _calculate_score response concept ≤ 100 := by
  unfold _calculate_score
  constructor
  · exact le_min (le_max_right _ 0) (by norm_num)
  · exact min_le_right _ 100

/-- C8: holding the concept fixed, extending a response (appending any
text, in particular text adding configured keywords) never decreases the
total score computed by `_calculate_score`. -/
theorem score_monotone_under_extension (response ext concept : String) :
    _calculate_score response concept ≤ _calculate_score (response ++ ext) concept := by
  unfold _calculate_score
  have hk : (keyword_score response concept : ℚ)
      ≤ (keyword_score (response ++ ext) concept : ℚ) := by
    exact_mod_cast keyword_score_append_le response ext concept
  have hl := length_score_append_le response ext
  refine min_le_min (max_le_max ?_ le_rfl) le_rfl
  linarith

/-- C3: for a concept absent from the keyword table, `_calculate_score`
yields keyword score 0 and total exactly `min(word_count/50, 1) * 40`. -/
theorem score_unknown_concept (response concept : String)
    (hc : keywordTable.lookup concept = none) :
    keyword_score response concept = 0 ∧
    _calculate_score response concept = min ((wordCount response : ℚ) / 50) 1 * 40 := by
  have hz : keyword_score response concept = 0 := by
    unfold keyword_score conceptKeywords
    rw [hc]
    rfl
  refine ⟨hz, ?_⟩
  unfold _calculate_score
  rw [hz]
  have h0 := length_score_nonneg response
  have h1 := length_score_le_one response
  have key : (((0 : Nat) : ℚ) * 0.6 + length_score response * 0.4) * 100
      = length_score response * 40 := by push_cast; ring
  rw [key]
  have hge : (0 : ℚ) ≤ length_score response * 40 := by positivity
  have hle : length_score response * 40 ≤ 100 := by linarith
  rw [max_eq_left hge, min_eq_left hle]
  unfold length_score
  ring

/-- Witness for C3 at the unknown concept "blockchain". -/
theorem score_unknown_concept_witness :
    keyword_score "hello world" "blockchain" = 0 ∧
    _calculate_score "hello world" "blockchain"
      = min ((wordCount "hello world" : ℚ) / 50) 1 * 40 :=
  score_unknown_concept "hello world" "blockchain" (by decide)

theorem getD_concrete_two {α : Type} (a b d : α) (n : Nat) (hn : n < 2) :
    [a, b].getD n d ∈ [a, b] := by
  match n, hn with
  | 0, _ => simp
  | 1, _ => simp

theorem emod_two_toNat_lt (z : Int) : (z % 2).toNat < 2 := by
  have h0 : 0 ≤ z % 2 := Int.emod_nonneg z (by norm_num)
  have h2 : z % 2 < 2 := Int.emod_lt_of_pos z (by norm_num)
  omega

/-- C4: the feedback string is taken from the bucket fixed by the score
thresholds (below 40 low, below 75 medium, otherwise high), at index
`hash(response) mod 2` within the bucket, and does not depend on the
concept — so it is a deterministic function of (response, score). -/
theorem feedback_bucket_deterministic (h : String → Int) (r c c₂ : String) (s : ℚ) :
    _generate_feedback h r c s =
      (if s < 40 then
        ["Your response shows initial understanding, but could be more comprehensive.",
         "Try to include more specific details related to the concept."]
       else if s < 75 then
        ["Good start! Consider diving deeper into the technical aspects.",
         "You're on the right track. Expand on key principles."]
       else
        ["Excellent analysis demonstrating deep conceptual understanding!",
         "Impressive response that covers multiple important aspects."]).getD
        ((h r % 2).toNat) ""
    ∧ _generate_feedback h r c s ∈
      (if s < 40 then
        ["Your response shows initial understanding, but could be more comprehensive.",
         "Try to include more specific details related to the concept."]
       else if s < 75 then
        ["Good start! Consider diving deeper into the technical aspects.",
         "You're on the right track. Expand on key principles."]
       else
        ["Excellent analysis demonstrating deep conceptual understanding!",
         "Impressive response that covers multiple important aspects."])
    ∧ _generate_feedback h r c s = _generate_feedback h r c₂ s := by
  have hlt := emod_two_toNat_lt (h r)
  unfold _generate_feedback feedbackCategory
  by_cases h40 : s < 40
  · simp only [h40, if_true]
    refine ⟨rfl, ?_, trivial⟩
    exact getD_concrete_two _ _ _ _ hlt
  · simp only [h40, if_false]
    by_cases h75 : s < 75
    · simp only [h75, if_true]
      refine ⟨rfl, ?_, trivial⟩
      exact getD_concrete_two _ _ _ _ hlt
    · simp only [h75, if_false]
      refine ⟨rfl, ?_, trivial⟩
      exact getD_concrete_two _ _ _ _ hlt

theorem analyze_response_second (h : String → Int) (st : ServerState)
    (r c id₁ id₂ : String) :
    analyze_response h (analyze_response h st r c id₁).2 r c id₂
      = ((analyze_response h st r c id₁).1, (analyze_response h st r c id₁).2) := by
  unfold analyze_response
  cases hl : st.response_cache.lookup (cacheKey h r c) with
  | some v => simp [hl]
  | none => simp [hl, List.lookup]

/-- C1: calling `analyze_response` twice with the same response and concept
yields results with identical total score and feedback, the same unique
identifier (the second call is a cache hit, no fresh identifier is minted),
and the second call leaves the server state unchanged. -/
theorem analyze_idempotent (h : String → Int) (st : ServerState)
    (r c id₁ id₂ : String) :
    (analyze_response h (analyze_response h st r c id₁).2 r c id₂).1.total_score
        = (analyze_response h st r c id₁).1.total_score
    ∧ (analyze_response h (analyze_response h st r c id₁).2 r c id₂).1.feedback
        = (analyze_response h st r c id₁).1.feedback
    ∧ (analyze_response h (analyze_response h st r c id₁).2 r c id₂).1.unique_id
        = (analyze_response h st r c id₁).1.unique_id
    ∧ (analyze_response h (analyze_response h st r c id₁).2 r c id₂).2
        = (analyze_response h st r c id₁).2 := by
  rw [analyze_response_second h st r c id₁ id₂]
  exact ⟨rfl, rfl, rfl, rfl⟩

/-- The outcome of decoding one inbound frame in `handle_client`
(src/WebSocket.py lines 105-110): `malformed` models a body on which
`json.loads` raises `JSONDecodeError`; `nonObject` models well-formed
JSON that is not an object, so that `data.get` raises `AttributeError`
(caught by the generic `except Exception` handler); `obj` models a JSON
object, whose `response` and `concept` fields decode to `""` when
absent (`data.get(..., '')`). -/
inductive Inbound where
  | malformed
  | nonObject
  | obj (response concept : String)
deriving DecidableEq, Repr

/-- One inbound message event: its decoded body, the fresh identifier a
new computation would mint (`str(uuid.uuid4())`), and the duration the
analysis step would take, checked against the `asyncio.wait_for`
deadline of 10 seconds. -/
structure MsgEvent where
  body : Inbound
  fresh : String
  elapsed : ℚ

/-- The payload `handle_client` sends back for one message: one of the
fixed error shapes (`json.dumps({'error': ...})`, with or without a
`details` field) or the serialized analysis result. -/
inductive OutMsg where
  | errorOnly (error : String)
  | errorDetails (error details : String)
  | success (result : AnalysisResult)
deriving DecidableEq, Repr

/-- Processing of one inbound message inside the `async for` loop of
`handle_client` (src/WebSocket.py lines 106-144): decode errors and
non-object bodies produce their fixed error payloads; an empty response
or concept is rejected before analysis; the analysis step runs under the
10-unit `asyncio.wait_for` bound, producing the timeout payload when the
bound expires (the abandoned computation leaves the state unchanged);
otherwise the pipeline result is sent. -/
def handleMessage (h : String → Int) (st : ServerState) (e : MsgEvent) :
    OutMsg × ServerState :=
  match e.body with
  | .malformed => (.errorOnly "JSON parsing error", st)
  | .nonObject => (.errorOnly "Internal server error", st)
  | .obj response concept =>
    if response = "" ∨ concept = "" then
      (.errorDetails "Invalid input" "Response and concept are required", st)
    else if e.elapsed > 10 then
      (.errorDetails "Analysis timeout" "Response took too long to process", st)
    else
      let res := analyze_response h st response concept e.fresh
      (.success res.1, res.2)

/-- The message loop of `handle_client`: every message is answered with
exactly one payload and the loop continues with the next message — none
of the per-message error paths closes the connection. -/
def handleLoop (h : String → Int) : ServerState → List MsgEvent → List OutMsg × ServerState
  | st, [] => ([], st)
  | st, e :: rest =>
    let step := handleMessage h st e
    let tail := handleLoop h step.2 rest
    (step.1 :: tail.1, tail.2)

/-- How the message loop of one connection terminates: the client closes
the connection (the `async for` ends normally) or an exception propagates
out of the loop body. -/
inductive LoopExit where
  | normal
  | exn
deriving DecidableEq, Repr

/-- Set-insertion into the active-connection set; models
`self.active_connections.add(websocket)` (line 103). -/
def addConn (conn : Nat) (conns : List Nat) : List Nat :=
  if conn ∈ conns then conns else conn :: conns

/-- Set-removal from the active-connection set; models
`self.active_connections.remove(websocket)` (line 147). -/
def removeConn (conn : Nat) (conns : List Nat) : List Nat :=
  conns.filter (fun x => x ≠ conn)

/-- The whole of `handle_client` (src/WebSocket.py lines 99-147) for one
connection: register the connection, run the message loop over the
messages received before the loop terminates, and — because the removal
sits in a `finally` block — deregister the connection on both exit
paths. -/
def handle_client (h : String → Int) (st : ServerState) (conn : Nat)
    (msgs : List MsgEvent) (ex : LoopExit) : List OutMsg × ServerState :=
  let stOpen := { st with active_connections := addConn conn st.active_connections }
  let res := handleLoop h stOpen msgs
  match ex with
  | .normal =>
    (res.1, { res.2 with active_connections := removeConn conn res.2.active_connections })
  | .exn =>
    (res.1, { res.2 with active_connections := removeConn conn res.2.active_connections })

/-- C5: a request whose decoded response or concept field is empty is
answered with exactly the fixed "Invalid input" payload, the analysis
pipeline is never invoked (the server state reaching the remaining
messages is unchanged), and the loop keeps processing the remaining
messages. -/
theorem invalid_input_rejected (h : String → Int) (st : ServerState)
    (r c f : String) (t : ℚ) (rest : List MsgEvent)
    (hrc : r = "" ∨ c = "") :
    handleLoop h st ({ body := .obj r c, fresh := f, elapsed := t } :: rest)
      = (OutMsg.errorDetails "Invalid input" "Response and concept are required"
          :: (handleLoop h st rest).1,
         (handleLoop h st rest).2) := by
  simp [handleLoop, handleMessage, hrc]

/-- Witness for C5 at an empty response field. -/
theorem invalid_input_rejected_witness :
    handleLoop (fun _ => 0) ⟨[], []⟩
        ({ body := .obj "" "machine_learning", fresh := "id0", elapsed := 1 } :: [])
      = (OutMsg.errorDetails "Invalid input" "Response and concept are required"
          :: (handleLoop (fun _ => 0) ⟨[], []⟩ []).1,
         (handleLoop (fun _ => 0) ⟨[], []⟩ []).2) :=
  invalid_input_rejected (fun _ => 0) ⟨[], []⟩ "" "machine_learning" "id0" 1 []
    (Or.inl rfl)

/-- C6: a message body that fails to decode is answered with exactly the
"JSON parsing error" payload, the connection is not closed, and the
remaining messages — in particular a subsequent valid request — are
processed from the unchanged state exactly as they would have been. -/
theorem malformed_json_recoverable (h : String → Int) (st : ServerState)
    (f : String) (t : ℚ) (rest : List MsgEvent) :
    handleLoop h st ({ body := .malformed, fresh := f, elapsed := t } :: rest)
      = (OutMsg.errorOnly "JSON parsing error" :: (handleLoop h st rest).1,
         (handleLoop h st rest).2) := by
  simp [handleLoop, handleMessage]

/-- C7: the analysis step runs under the 10-unit bound; when the bound is
exceeded on a validated request, the handler answers with exactly the
"Analysis timeout" payload and the remaining messages — including a
following valid request — are processed from the unchanged state. -/
theorem analysis_timeout_recoverable (h : String → Int) (st : ServerState)
    (r c f : String) (t : ℚ) (rest : List MsgEvent)
    (hr : r ≠ "") (hc : c ≠ "") (ht : t > 10) :
    handleLoop h st ({ body := .obj r c, fresh := f, elapsed := t } :: rest)
      = (OutMsg.errorDetails "Analysis timeout" "Response took too long to process"
          :: (handleLoop h st rest).1,
         (handleLoop h st rest).2) := by
  simp [handleLoop, handleMessage, hr, hc, ht]

/-- Witness for C7 at an 11-unit analysis duration. -/
theorem analysis_timeout_recoverable_witness :
    handleLoop (fun _ => 0) ⟨[], []⟩
        ({ body := .obj "ok" "ai_ethics", fresh := "id1", elapsed := 11 } :: [])
      = (OutMsg.errorDetails "Analysis timeout" "Response took too long to process"
          :: (handleLoop (fun _ => 0) ⟨[], []⟩ []).1,
         (handleLoop (fun _ => 0) ⟨[], []⟩ []).2) :=
  analysis_timeout_recoverable (fun _ => 0) ⟨[], []⟩ "ok" "ai_ethics" "id1" 11 []
    (by decide) (by decide) (by norm_num)

/-- C10: a well-formed JSON body that is not an object is answered with
exactly the "Internal server error" payload — which differs from the
"JSON parsing error" payload — and the remaining messages are processed
from the unchanged state. -/
theorem non_object_internal_error (h : String → Int) (st : ServerState)
    (f : String) (t : ℚ) (rest : List MsgEvent) :
    handleLoop h st ({ body := .nonObject, fresh := f, elapsed := t } :: rest)
      = (OutMsg.errorOnly "Internal server error" :: (handleLoop h st rest).1,
         (handleLoop h st rest).2)
    ∧ (handleLoop h st ({ body := .nonObject, fresh := f, elapsed := t } :: rest)).1.head?
        ≠ some (OutMsg.errorOnly "JSON parsing error") := by
  constructor
  · simp [handleLoop, handleMessage]
  · simp [handleLoop, handleMessage]

/-- C9: a connection handler adds its connection to the active-connection
set on entry, and — the removal being in a `finally` block — after the
handler terminates by either exit path (normal loop completion or an
exception propagating out of the loop) the connection is no longer a
member of the set. -/
theorem connection_set_discipline (h : String → Int) (st : ServerState)
    (conn : Nat) (msgs : List MsgEvent) (ex : LoopExit) :
    conn ∈ addConn conn st.active_connections
    ∧ conn ∉ (handle_client h st conn msgs ex).2.active_connections := by
  constructor
  · unfold addConn
    split
    · assumption
    · exact List.mem_cons_self conn _
  · unfold handle_client
    cases ex <;> simp [removeConn, List.mem_filter]
